import Mathlib

/-!
Verification of the Vmize Studio metered API gateway.

Shallow embedding of the core logic of the repository:
* `analytics-tracker.js` (AnalyticsTracker: trackApiCall, trackEvent,
  getConversionFunnel, calculateRate, saveData/loadData, reset),
* `vmize-proxy-server-with-analytics.js` (verifyVmizeKey, doTryOn and the
  express routes built from them, demo key store),
* `vmize-proxy-server.js` (verifyCustomerApiKey, the plain `/api/tryon`
  and `/api/usage` routes),
* the monthly billing cron job of the main backend server file.

JavaScript numbers are modelled with `Nat`/`Int`/`ℚ` (all the counters the
code manipulates stay far below 2^53, where JS arithmetic is exact), JS
`undefined` with `Option`, a thrown exception with an aborting/`Option`
result, and a JS `Set` with a duplicate-free insertion-ordered list.
-/

set_option maxHeartbeats 1000000

namespace Vmize

/-! ## Analytics tracker (analytics-tracker.js) -/

/-- The event-counter table created by the `AnalyticsTracker` constructor:
the seven funnel counters start at 0, every other name is absent
(JS `undefined`). -/
def initialEventCounts : String → Option Nat := fun name =>
  if name = "tryon_initiated" ∨ name = "photo_uploaded" ∨ name = "result_generated"
      ∨ name = "result_viewed" ∨ name = "add_to_cart" ∨ name = "purchase"
      ∨ name = "api_error" then some 0 else none

/-- Counter update performed by `trackEvent`: an already-present counter is
incremented, an unknown event name is accepted and starts at 1. -/
def trackEventCount (counts : String → Option Nat) (eventName : String) :
    String → Option Nat := fun k =>
  if k = eventName then
    match counts eventName with
    | some n => some (n + 1)
    | none => some 1
  else counts k

/-- `calculateRate(numerator, denominator)`: returns 0 when the denominator is
falsy (`undefined` or 0); otherwise `numerator/denominator * 100`.  The result
is the numeric percentage (`toFixed(1)` string formatting is dropped);
`none` models the JS `NaN` produced by `undefined / n`. -/
def calculateRate (numerator denominator : Option Nat) : Option ℚ :=
  match denominator with
  | none => some 0
  | some 0 => some 0
  | some d =>
    match numerator with
    | none => none
    | some n => some ((n : ℚ) * 100 / (d : ℚ))

/-- The report built by `getConversionFunnel` (stage counts and the four
stage-to-stage percentages). -/
structure ConversionFunnel where
  productView : Nat
  tryonClick : Nat
  photoUpload : Nat
  resultViewed : Nat
  addToCart : Nat
  purchase : Nat
  uploadRate : Option ℚ
  viewRate : Option ℚ
  cartRate : Option ℚ
  purchaseRate : Option ℚ
deriving Repr, DecidableEq

/-- `getConversionFunnel()`: stage counts use `events.x || 0`; the four rates
are computed by `calculateRate` on the raw (possibly absent) counters. -/
def getConversionFunnel (events : String → Option Nat) : ConversionFunnel :=
  { productView := (events "tryon_initiated").getD 0
    tryonClick := (events "tryon_initiated").getD 0
    photoUpload := (events "photo_uploaded").getD 0
    resultViewed := (events "result_viewed").getD 0
    addToCart := (events "add_to_cart").getD 0
    purchase := (events "purchase").getD 0
    uploadRate := calculateRate (events "photo_uploaded") (events "tryon_initiated")
    viewRate := calculateRate (events "result_viewed") (events "photo_uploaded")
    cartRate := calculateRate (events "add_to_cart") (events "result_viewed")
    purchaseRate := calculateRate (events "purchase") (events "add_to_cart") }

/-- A JS call status value: the code compares it with `=== 'success'` and
`=== 200`. -/
inductive JStatus where
  | str (s : String)
  | num (n : Nat)
deriving Repr, DecidableEq

/-- `data.status === 'success' || data.status === 200`. -/
def isSuccessStatus : JStatus → Bool
  | .str s => s = "success"
  | .num n => n = 200

/-- Per-customer rollup kept in `data.customers`. -/
structure CustomerStats where
  totalCalls : Nat
  successfulCalls : Nat
  failedCalls : Nat
  totalDuration : Nat
  revenue : ℚ
deriving Repr, DecidableEq

/-- The rollup created for a customer on first sight. -/
def freshCustomerStats : CustomerStats :=
  { totalCalls := 0, successfulCalls := 0, failedCalls := 0, totalDuration := 0, revenue := 0 }

/-- Per-day aggregate kept in `data.dailyStats`; `uniqueCustomers` is a JS
`Set`, modelled as a duplicate-free insertion-ordered list. -/
structure DayStats where
  totalCalls : Nat
  successfulCalls : Nat
  failedCalls : Nat
  uniqueCustomers : List String
  revenue : ℚ
deriving Repr, DecidableEq

/-- The aggregate created for a date on first sight. -/
def freshDayStats : DayStats :=
  { totalCalls := 0, successfulCalls := 0, failedCalls := 0, uniqueCustomers := [], revenue := 0 }

/-- JS `Set.prototype.add`: appends the element only when not already present. -/
def setAdd (s : List String) (x : String) : List String :=
  if x ∈ s then s else s ++ [x]

/-- One immutable entry of the `apiCalls` log (the ambient fields `id`,
`apiKey`, iso timestamp, `productId` carry no logic and are dropped). -/
structure ApiCall where
  customerId : String
  endpoint : String
  method : String
  status : JStatus
  duration : Nat
  dateKey : String
deriving Repr, DecidableEq

/-- The argument object of `trackApiCall`. -/
structure ApiCallInput where
  customerId : String
  endpoint : String
  method : String
  status : JStatus
  duration : Nat
deriving Repr, DecidableEq

/-- Lookup in a JS object used as a map (insertion-ordered association list). -/
def findEntry {α : Type} : List (String × α) → String → Option α
  | [], _ => none
  | (k, v) :: rest, key => if key = k then some v else findEntry rest key

/-- `if (!obj[key]) obj[key] = fresh; f(obj[key])`: update the entry for
`key`, creating it from `fresh` when absent (new keys append in JS
insertion order). -/
def upsertEntry {α : Type} : List (String × α) → String → α → (α → α) → List (String × α)
  | [], key, fresh, f => [(key, f fresh)]
  | (k, v) :: rest, key, fresh, f =>
    if key = k then (k, f v) :: rest else (k, v) :: upsertEntry rest key fresh f

/-- `if (obj[key]) f(obj[key])`: update the entry for `key` only when it
already exists. -/
def adjustEntry {α : Type} : List (String × α) → String → (α → α) → List (String × α)
  | [], _, _ => []
  | (k, v) :: rest, key, f =>
    if key = k then (k, f v) :: rest else (k, v) :: adjustEntry rest key f

/-- The whole durable analytics state (`this.data`; `startDate` is an ambient
timestamp and is dropped). -/
structure AnalyticsData where
  apiCalls : List ApiCall
  customers : List (String × CustomerStats)
  dailyStats : List (String × DayStats)
  eventCounts : String → Option Nat
  revenue : ℚ

/-- The state built by the `AnalyticsTracker` constructor. -/
def initialAnalyticsData : AnalyticsData :=
  { apiCalls := [], customers := [], dailyStats := [], eventCounts := initialEventCounts,
    revenue := 0 }

/-- `reset()` reinstalls the constructor state. -/
def resetAnalytics (_d : AnalyticsData) : AnalyticsData := initialAnalyticsData

/-- The per-customer rollup update performed by `trackApiCall`: `totalCalls`
and `totalDuration` always grow; exactly one of `successfulCalls` /
`failedCalls` grows, by the success test on `data.status`. -/
def applyCallToCustomerStats (input : ApiCallInput) (c : CustomerStats) : CustomerStats :=
  let c1 := { c with totalCalls := c.totalCalls + 1,
                     totalDuration := c.totalDuration + input.duration }
  if isSuccessStatus input.status then
    { c1 with successfulCalls := c1.successfulCalls + 1 }
  else
    { c1 with failedCalls := c1.failedCalls + 1 }

/-- The daily-aggregate update performed by `trackApiCall`: `totalCalls`
grows, the customer id joins the day's set, and exactly one of
`successfulCalls` / `failedCalls` grows. -/
def applyCallToDayStats (input : ApiCallInput) (day : DayStats) : DayStats :=
  let d1 := { day with totalCalls := day.totalCalls + 1,
                       uniqueCustomers := setAdd day.uniqueCustomers input.customerId }
  if isSuccessStatus input.status then
    { d1 with successfulCalls := d1.successfulCalls + 1 }
  else
    { d1 with failedCalls := d1.failedCalls + 1 }

/-- `trackApiCall(data)` at UTC date `dateKey`: appends the call record
(`customerId || 'unknown'` turns the one falsy string into `'unknown'`),
upserts the per-customer rollup, and upserts the daily aggregate. -/
def trackApiCall (d : AnalyticsData) (dateKey : String) (input : ApiCallInput) :
    AnalyticsData :=
  let call : ApiCall :=
    { customerId := if input.customerId = "" then "unknown" else input.customerId
      endpoint := input.endpoint, method := input.method, status := input.status
      duration := input.duration, dateKey := dateKey }
  { d with
    apiCalls := d.apiCalls ++ [call]
    customers := upsertEntry d.customers input.customerId freshCustomerStats
      (applyCallToCustomerStats input)
    dailyStats := upsertEntry d.dailyStats dateKey freshDayStats
      (applyCallToDayStats input) }

/-- `trackEvent(eventName, data)` at UTC date `dateKey`: bumps the event
counter; when `data.revenue` is truthy (`some r` here) it is added to the
global revenue, to the customer rollup when that customer exists, and to the
daily aggregate when that date exists. -/
def trackEvent (d : AnalyticsData) (dateKey : String) (eventName : String)
    (customerId : Option String) (revenue : Option ℚ) : AnalyticsData :=
  let d1 := { d with eventCounts := trackEventCount d.eventCounts eventName }
  match revenue with
  | none => d1
  | some r =>
    let d2 := { d1 with revenue := d1.revenue + r }
    let d3 :=
      match customerId with
      | some cid =>
        { d2 with customers :=
            adjustEntry d2.customers cid (fun c => { c with revenue := c.revenue + r }) }
      | none => d2
    { d3 with dailyStats :=
        adjustEntry d3.dailyStats dateKey (fun day => { day with revenue := day.revenue + r }) }

/-- One call into the tracker, for reasoning about arbitrary operation
sequences. -/
inductive TrackOp where
  | apiCall (dateKey : String) (input : ApiCallInput)
  | event (dateKey : String) (name : String) (customerId : Option String) (revenue : Option ℚ)

/-- Apply one tracker operation. -/
def applyOp (d : AnalyticsData) : TrackOp → AnalyticsData
  | .apiCall dk i => trackApiCall d dk i
  | .event dk n c r => trackEvent d dk n c r

/-- Run a sequence of tracker operations. -/
def runOps (d : AnalyticsData) (ops : List TrackOp) : AnalyticsData :=
  ops.foldl applyOp d

/-- Every per-customer rollup and every daily aggregate splits its total call
count into successes plus failures. -/
def statsConsistent (d : AnalyticsData) : Prop :=
  (∀ p ∈ d.customers, p.2.totalCalls = p.2.successfulCalls + p.2.failedCalls) ∧
  (∀ p ∈ d.dailyStats, p.2.totalCalls = p.2.successfulCalls + p.2.failedCalls)

/-! ## Durable persistence of the daily aggregates (saveData / loadData)

`saveData` writes `JSON.stringify(this.data)`.  `JSON.stringify` serializes a
JS `Set` as an object with no own enumerable properties, i.e. as the empty
JSON object, losing every member.  `loadData` parses the file and, for each
day whose `uniqueCustomers` field is truthy and not already a `Set`, runs
`new Set(day.uniqueCustomers)`; `new Set(v)` enumerates an iterable `v`
(an array yields its elements, deduplicated) and throws a `TypeError` when
`v` is a plain non-iterable object such as the empty object. -/

/-- The possible shapes of a serialized `uniqueCustomers` field found in the
data file: the empty JSON object (what `JSON.stringify` makes of a `Set`), or
a JSON array of customer ids (what `loadData` was written to expect). -/
inductive SerializedSet where
  | emptyObject
  | arr (elems : List String)
deriving Repr, DecidableEq

/-- `JSON.stringify` applied to the `uniqueCustomers` `Set`: always the empty
object, regardless of the members. -/
def serializeSet (_s : List String) : SerializedSet := .emptyObject

/-- `new Set(v)` on a parsed `uniqueCustomers` value: an array rehydrates into
a set of its elements; the empty object is not iterable, so the construction
throws (`none`). -/
def rehydrateSet : SerializedSet → Option (List String)
  | .arr xs => some (xs.foldl setAdd [])
  | .emptyObject => none

/-- A daily aggregate as it sits in the serialized data file. -/
structure SerializedDayStats where
  totalCalls : Nat
  successfulCalls : Nat
  failedCalls : Nat
  uniqueCustomers : SerializedSet
  revenue : ℚ
deriving Repr, DecidableEq

/-- `JSON.stringify` applied to one daily aggregate. -/
def serializeDayStats (day : DayStats) : SerializedDayStats :=
  { totalCalls := day.totalCalls, successfulCalls := day.successfulCalls
    failedCalls := day.failedCalls, uniqueCustomers := serializeSet day.uniqueCustomers
    revenue := day.revenue }

/-- `saveData` restricted to the `dailyStats` table. -/
def saveDailyStats (stats : List (String × DayStats)) :
    List (String × SerializedDayStats) :=
  stats.map fun p => (p.1, serializeDayStats p.2)

/-- `loadData`'s rehydration loop over the parsed `dailyStats` table: `none`
models the `TypeError` escaping the loop (caught by `loadData`'s catch block,
which leaves the aggregates without set semantics). -/
def loadDailyStats (file : List (String × SerializedDayStats)) :
    Option (List (String × DayStats)) :=
  file.mapM fun p => (rehydrateSet p.2.uniqueCustomers).map fun s =>
    (p.1, { totalCalls := p.2.totalCalls, successfulCalls := p.2.successfulCalls
            failedCalls := p.2.failedCalls, uniqueCustomers := s
            revenue := p.2.revenue : DayStats })

/-! ## Proxy server with analytics (vmize-proxy-server-with-analytics.js) -/

/-- One record of the demo key store (`demoKeys[apiKey]`). -/
structure Customer where
  customerId : String
  email : String
  plan : String
  limit : Nat
  used : Nat
deriving Repr, DecidableEq

/-- The mutable demo key store, an object keyed by API key. -/
abbrev KeyStore : Type := List (String × Customer)

/-- The `demoKeys` object as initialized at module load. -/
def demoKeysInit : KeyStore :=
  [("vmize_pk_demo_test_1234567890",
    { customerId := "demo_customer", email := "demo@example.com",
      plan := "professional", limit := 500, used := 0 })]

/-- The demo API key injected by the demo-friendly endpoints. -/
def demoApiKey : String := "vmize_pk_demo_test_1234567890"

/-- JS `String.prototype.startsWith`, written over the character lists so the
kernel can evaluate it. -/
def jsStartsWith (s p : String) : Bool := List.isPrefixOf p.data s.data

/-- Increment `demoKeys[apiKey].used` (`used++`) when the key is present. -/
def incUsed : KeyStore → String → KeyStore
  | [], _ => []
  | (k, c) :: rest, key =>
    if key = k then (k, { c with used := c.used + 1 }) :: rest
    else (k, c) :: incUsed rest key

/-- Outcome of the `verifyVmizeKey` middleware: an HTTP error response, or
`next()` with `req.customer`/`req.apiKey` attached. -/
inductive Verify where
  | reject (status : Nat)
  | allow (apiKey : String) (c : Customer)
deriving Repr, DecidableEq

/-- `verifyVmizeKey`: 401 when the header is missing, when the key does not
start with `vmize_pk_`, or when no customer matches; 429 when
`customer.used >= customer.limit`; otherwise the request proceeds. -/
def verifyVmizeKey (store : KeyStore) (header : Option String) : Verify :=
  match header with
  | none => .reject 401
  | some apiKey =>
    if !jsStartsWith apiKey "vmize_pk_" then .reject 401
    else
      match findEntry store apiKey with
      | none => .reject 401
      | some customer =>
        if customer.limit ≤ customer.used then .reject 429
        else .allow apiKey customer

/-- The request body of a try-on submission (`model_image`, `garment_image`;
the other fields default and carry no control flow here). -/
structure TryOnBody where
  model_image : Option String
  garment_image : Option String
deriving Repr, DecidableEq

/-- What the axios call to the upstream provider does: reject (timeout or
network failure), or resolve/return an HTTP response.  axios rejects non-2xx
responses and `doTryOn` additionally treats `status >= 400` as an error, so
`resp` with `400 ≤ status` takes the same error path as `netFailure`. -/
inductive Upstream where
  | netFailure
  | resp (status : Nat) (predictionId : String)
deriving Repr, DecidableEq

/-- The observable outcome of `doTryOn`: HTTP status sent, the key store after
the handler, whether the upstream request was issued, and the `remaining`
field of the JSON response (present on both the 200 and the 500 body whenever
the key is in the store). -/
structure TryOnRes where
  status : Nat
  store : KeyStore
  upstreamCalled : Bool
  remaining : Option Int
deriving Repr, DecidableEq

/-- The `remaining` value reported for `apiKey`:
`demoKeys[apiKey].limit - demoKeys[apiKey].used` when the key is present. -/
def reportRemaining (store : KeyStore) (apiKey : String) : Option Int :=
  (findEntry store apiKey).map fun c => (c.limit : Int) - (c.used : Int)

/-- `doTryOn` (analytics server), run after `verifyVmizeKey` has called
`next()`.  In source order: missing upstream credential, missing image
references, and an invalid upstream URL all throw before the upstream request
and are answered `500` by the catch block; an upstream rejection or a
`status >= 400` response is answered `500` with the store unchanged; on
success `demoKeys[apiKey].used` is incremented and the 200 body reports the
new usage. -/
def doTryOn (fashnConfigured urlOk : Bool) (store : KeyStore) (apiKey : String)
    (body : TryOnBody) (up : Upstream) : TryOnRes :=
  if !fashnConfigured then
    { status := 500, store := store, upstreamCalled := false
      remaining := reportRemaining store apiKey }
  else if body.model_image.isNone || body.garment_image.isNone then
    { status := 500, store := store, upstreamCalled := false
      remaining := reportRemaining store apiKey }
  else if !urlOk then
    { status := 500, store := store, upstreamCalled := false
      remaining := reportRemaining store apiKey }
  else
    match up with
    | .netFailure =>
      { status := 500, store := store, upstreamCalled := true
        remaining := reportRemaining store apiKey }
    | .resp st _ =>
      if 400 ≤ st then
        { status := 500, store := store, upstreamCalled := true
          remaining := reportRemaining store apiKey }
      else
        let store1 := incUsed store apiKey
        { status := 200, store := store1, upstreamCalled := true
          remaining := reportRemaining store1 apiKey }

/-- The observable outcome of a guarded route: HTTP status, resulting store,
whether the middleware let the handler run, whether the upstream was called,
and the reported `remaining`. -/
structure EndpointRes where
  status : Nat
  store : KeyStore
  processed : Bool
  upstreamCalled : Bool
  remaining : Option Int
deriving Repr, DecidableEq

/-- `POST /api/tryon`: `verifyVmizeKey` then `doTryOn`. -/
def tryonEndpoint (fashnConfigured urlOk : Bool) (store : KeyStore)
    (header : Option String) (body : TryOnBody) (up : Upstream) : EndpointRes :=
  match verifyVmizeKey store header with
  | .reject s =>
    { status := s, store := store, processed := false, upstreamCalled := false,
      remaining := none }
  | .allow apiKey _ =>
    let r := doTryOn fashnConfigured urlOk store apiKey body up
    { status := r.status, store := r.store, processed := true,
      upstreamCalled := r.upstreamCalled, remaining := r.remaining }

/-- `POST /api/tryon/generate`: injects the demo API key when the header is
missing, then runs `verifyVmizeKey` and `doTryOn`. -/
def generateEndpoint (fashnConfigured urlOk : Bool) (store : KeyStore)
    (header : Option String) (body : TryOnBody) (up : Upstream) : EndpointRes :=
  tryonEndpoint fashnConfigured urlOk store (some (header.getD demoApiKey)) body up

/-- The response of `GET /api/usage`: an admission error, or the usage JSON
(`percentageUsed` is a pure formatting of `used/limit` and is dropped). -/
inductive UsageOut where
  | err (status : Nat)
  | ok (plan : String) (limit used : Nat) (remaining : Int)
deriving Repr, DecidableEq

/-- `GET /api/usage`: `verifyVmizeKey` then the usage JSON, whose `remaining`
is `customer.limit - customer.used`. -/
def usageEndpoint (store : KeyStore) (header : Option String) : UsageOut :=
  match verifyVmizeKey store header with
  | .reject s => .err s
  | .allow _ c => .ok c.plan c.limit c.used ((c.limit : Int) - (c.used : Int))

/-- `POST /api/analytics/reset` zeroes every demo customer's usage. -/
def resetEndpoint (store : KeyStore) : KeyStore :=
  store.map fun p => (p.1, { p.2 with used := 0 })

/-- One specific event-loop schedule of two overlapping `/api/tryon` requests
from the same customer.  The handler has suspension points between its
synchronous pieces: after `verifyVmizeKey` admits, the handler awaits the
analytics file writes and the 30 s upstream call before reaching `used++`,
and awaits `trackApiCall` again before reading `remaining` for the 200 body.
In this schedule both requests are admitted against the same store snapshot
(the second verifies while the first is still awaiting upstream), then the
first handler increments, then the second increments and builds its 200
response, whose `remaining` field reads the store after both increments.
Returns both admission results, the final store, and the second response's
`remaining`. -/
def overlappedTryOnPair (store : KeyStore) (k : String) :
    Verify × Verify × KeyStore × Option Int :=
  let admission1 := verifyVmizeKey store (some k)
  let admission2 := verifyVmizeKey store (some k)
  let storeAfterFirst := incUsed store k
  let storeAfterSecond := incUsed storeAfterFirst k
  (admission1, admission2, storeAfterSecond, reportRemaining storeAfterSecond k)

/-- One server-side transition of the demo key store under non-overlapping
request execution: a whole `/api/tryon` request, a whole
`/api/tryon/generate` request, or an analytics reset (the status-poll and
usage routes never write the store).  Each constructor runs one request
atomically from admission to response; overlapping requests, whose admission
and increment interleave across the handler's awaits, are modelled by
`overlappedTryOnPair` instead and are not covered by this relation. -/
inductive StoreStep : KeyStore → KeyStore → Prop
  | tryon (s : KeyStore) (cfg urlOk : Bool) (header : Option String)
      (body : TryOnBody) (up : Upstream) :
      StoreStep s (tryonEndpoint cfg urlOk s header body up).store
  | generate (s : KeyStore) (cfg urlOk : Bool) (header : Option String)
      (body : TryOnBody) (up : Upstream) :
      StoreStep s (generateEndpoint cfg urlOk s header body up).store
  | reset (s : KeyStore) : StoreStep s (resetEndpoint s)

/-- The key stores reachable from the module-load state by non-overlapping
requests. -/
def ReachableStore (s : KeyStore) : Prop :=
  Relation.ReflTransGen StoreStep demoKeysInit s

/-- Every customer of the store is within its plan limit. -/
def UsedWithinLimit (s : KeyStore) : Prop :=
  ∀ p ∈ s, p.2.used ≤ p.2.limit

/-! ## Plain proxy server (vmize-proxy-server.js) -/

/-- One customer record of the plain server's `CUSTOMER_API_KEYS` map. -/
structure PlainCustomer where
  customerId : String
  plan : String
  email : String
  status : String
  planLimit : Nat
  usageThisMonth : Nat
deriving Repr, DecidableEq

/-- Outcome of the `verifyCustomerApiKey` middleware. -/
inductive PlainVerify where
  | reject (status : Nat)
  | allow (c : PlainCustomer)
deriving Repr, DecidableEq

/-- `verifyCustomerApiKey`: 401 when the header is missing, when the key
starts with neither `vmize_pk_live_` nor `vmize_pk_test_`, or when no
customer matches; 403 when the subscription is not active; 429 when
`usageThisMonth >= planLimit`. -/
def verifyCustomerApiKey (store : List (String × PlainCustomer))
    (header : Option String) : PlainVerify :=
  match header with
  | none => .reject 401
  | some apiKey =>
    if !jsStartsWith apiKey "vmize_pk_live_" && !jsStartsWith apiKey "vmize_pk_test_" then
      .reject 401
    else
      match findEntry store apiKey with
      | none => .reject 401
      | some customer =>
        if customer.status ≠ "active" then .reject 403
        else if customer.planLimit ≤ customer.usageThisMonth then .reject 429
        else .allow customer

/-- Observable outcome of the plain `/api/tryon` handler body. -/
structure PlainTryOnRes where
  status : Nat
  upstreamCalled : Bool
deriving Repr, DecidableEq

/-- The plain server's `/api/tryon` handler, run after admission: missing
image references answer `400` before the upstream request; an upstream
rejection or a response outside 2xx (`!response.ok`) answers `500`; otherwise
`200` (`trackUsage` only logs, so no stored counter changes on any path). -/
def plainTryOn (body : TryOnBody) (up : Upstream) : PlainTryOnRes :=
  if body.model_image.isNone || body.garment_image.isNone then
    { status := 400, upstreamCalled := false }
  else
    match up with
    | .netFailure => { status := 500, upstreamCalled := true }
    | .resp st _ =>
      if 200 ≤ st ∧ st < 300 then { status := 200, upstreamCalled := true }
      else { status := 500, upstreamCalled := true }

/-- The plain server's `GET /api/usage` handler, run after admission:
`remaining` is `planLimit - usageThisMonth`. -/
def plainUsageEndpoint (store : List (String × PlainCustomer))
    (header : Option String) : UsageOut :=
  match verifyCustomerApiKey store header with
  | .reject s => .err s
  | .allow c => .ok c.plan c.planLimit c.usageThisMonth
      ((c.planLimit : Int) - (c.usageThisMonth : Int))

/-! ## Monthly billing job (main backend server file, cron.schedule callback)

The customer model file (`models/Customer`) is not part of the repository
snapshot, only its call sites are. -/

/-- A billing-side customer.  Modelled from the spec: the Customer model file
is missing; the spec gives usage as a current-month counter with a bounded
history of prior months, a plan limit and a per-unit overage rate. -/
structure BillingCustomer where
  email : String
  stripeCustomerId : String
  currentMonthUsage : Nat
  planLimit : Nat
  overageRate : ℚ
  periodKey : String
  usageHistory : List (String × Nat)
deriving Repr, DecidableEq

/-- Modelled from the spec: `Customer.calculateOverage` is missing from the
snapshot; the spec states `overageUnits = max(0, currentMonthUsage -
planLimit)` and `cost = overageUnits * perUnitOverageRate(plan)` (`Nat`
subtraction is the required truncation). -/
def calculateOverage (c : BillingCustomer) : Nat × ℚ :=
  let overage := c.currentMonthUsage - c.planLimit
  (overage, (overage : ℚ) * c.overageRate)

/-- Modelled from the spec: `Customer.resetMonthlyUsage` is missing from the
snapshot; the spec states that it resets the current-month usage to zero and
archives the prior value into the usage history for the period. -/
def resetMonthlyUsage (c : BillingCustomer) : BillingCustomer :=
  { c with currentMonthUsage := 0
           usageHistory := c.usageHistory ++ [(c.periodKey, c.currentMonthUsage)] }

/-- The monthly billing cron callback, from the main backend server file: one
`try` block wraps the whole `for` loop over the active customers; inside the
loop, a customer with positive overage cost is charged
(`stripeService.createOverageCharge`) and then `resetMonthlyUsage` runs.
`chargeOk c = false` means the charge call rejects; the exception then
propagates out of the loop to the surrounding catch, so that customer and
every later customer are left untouched.  Returns the final customer list
and the charges issued (customer id, cost). -/
def runMonthlyBilling (chargeOk : BillingCustomer → Bool) :
    List BillingCustomer → List BillingCustomer × List (String × ℚ)
  | [] => ([], [])
  | c :: rest =>
    let cost := (calculateOverage c).2
    if 0 < cost then
      if chargeOk c then
        let r := runMonthlyBilling chargeOk rest
        (resetMonthlyUsage c :: r.1, (c.stripeCustomerId, cost) :: r.2)
      else
        (c :: rest, [])
    else
      let r := runMonthlyBilling chargeOk rest
      (resetMonthlyUsage c :: r.1, r.2)

/-! ## Helper lemmas -/

theorem upsertEntry_forall {α : Type} (P : α → Prop) (f : α → α) (fresh : α)
    (hf : ∀ v, P v → P (f v)) (hfresh : P fresh) :
    ∀ (l : List (String × α)) (key : String), (∀ p ∈ l, P p.2) →
      ∀ p ∈ upsertEntry l key fresh f, P p.2 := by
  intro l
  induction l with
  | nil =>
    intro key _ p hp
    simp only [upsertEntry, List.mem_singleton] at hp
    subst hp
    exact hf fresh hfresh
  | cons hd tl ih =>
    obtain ⟨k, v⟩ := hd
    intro key hl p hp
    simp only [upsertEntry] at hp
    by_cases hk : key = k
    · rw [if_pos hk] at hp
      rcases List.mem_cons.mp hp with h1 | h2
      · subst h1
        exact hf v (hl (k, v) (List.mem_cons_self _ _))
      · exact hl p (List.mem_cons_of_mem _ h2)
    · rw [if_neg hk] at hp
      rcases List.mem_cons.mp hp with h1 | h2
      · subst h1
        exact hl (k, v) (List.mem_cons_self _ _)
      · exact ih key (fun q hq => hl q (List.mem_cons_of_mem _ hq)) p h2

theorem adjustEntry_forall {α : Type} (P : α → Prop) (f : α → α)
    (hf : ∀ v, P v → P (f v)) :
    ∀ (l : List (String × α)) (key : String), (∀ p ∈ l, P p.2) →
      ∀ p ∈ adjustEntry l key f, P p.2 := by
  intro l
  induction l with
  | nil =>
    intro key _ p hp
    simp [adjustEntry] at hp
  | cons hd tl ih =>
    obtain ⟨k, v⟩ := hd
    intro key hl p hp
    simp only [adjustEntry] at hp
    by_cases hk : key = k
    · rw [if_pos hk] at hp
      rcases List.mem_cons.mp hp with h1 | h2
      · subst h1
        exact hf v (hl (k, v) (List.mem_cons_self _ _))
      · exact hl p (List.mem_cons_of_mem _ h2)
    · rw [if_neg hk] at hp
      rcases List.mem_cons.mp hp with h1 | h2
      · subst h1
        exact hl (k, v) (List.mem_cons_self _ _)
      · exact ih key (fun q hq => hl q (List.mem_cons_of_mem _ hq)) p h2

theorem applyCallToCustomerStats_consistent (input : ApiCallInput) (c : CustomerStats)
    (h : c.totalCalls = c.successfulCalls + c.failedCalls) :
    (applyCallToCustomerStats input c).totalCalls =
      (applyCallToCustomerStats input c).successfulCalls +
        (applyCallToCustomerStats input c).failedCalls := by
  unfold applyCallToCustomerStats
  by_cases hs : isSuccessStatus input.status <;> simp [hs] <;> omega

theorem applyCallToDayStats_consistent (input : ApiCallInput) (day : DayStats)
    (h : day.totalCalls = day.successfulCalls + day.failedCalls) :
    (applyCallToDayStats input day).totalCalls =
      (applyCallToDayStats input day).successfulCalls +
        (applyCallToDayStats input day).failedCalls := by
  unfold applyCallToDayStats
  by_cases hs : isSuccessStatus input.status <;> simp [hs] <;> omega

theorem statsConsistent_applyOp (d : AnalyticsData) (op : TrackOp)
    (h : statsConsistent d) : statsConsistent (applyOp d op) := by
  obtain ⟨hc, hd⟩ := h
  cases op with
  | apiCall dk input =>
    refine ⟨?_, ?_⟩
    · exact upsertEntry_forall _ _ _
        (fun v hv => applyCallToCustomerStats_consistent input v hv) rfl
        d.customers input.customerId hc
    · exact upsertEntry_forall _ _ _
        (fun v hv => applyCallToDayStats_consistent input v hv) rfl
        d.dailyStats dk hd
  | event dk name cid rev =>
    cases rev with
    | none => exact ⟨hc, hd⟩
    | some r =>
      cases cid with
      | none =>
        refine ⟨hc, ?_⟩
        exact adjustEntry_forall
          (fun v => v.totalCalls = v.successfulCalls + v.failedCalls)
          (fun day => { day with revenue := day.revenue + r })
          (fun v hv => hv) d.dailyStats dk hd
      | some cidv =>
        refine ⟨?_, ?_⟩
        · exact adjustEntry_forall
            (fun v => v.totalCalls = v.successfulCalls + v.failedCalls)
            (fun c => { c with revenue := c.revenue + r })
            (fun v hv => hv) d.customers cidv hc
        · exact adjustEntry_forall
            (fun v => v.totalCalls = v.successfulCalls + v.failedCalls)
            (fun day => { day with revenue := day.revenue + r })
            (fun v hv => hv) d.dailyStats dk hd

theorem statsConsistent_runOps (d : AnalyticsData) (ops : List TrackOp)
    (h : statsConsistent d) : statsConsistent (runOps d ops) := by
  induction ops generalizing d with
  | nil => exact h
  | cons op rest ih => exact ih (applyOp d op) (statsConsistent_applyOp d op h)

theorem statsConsistent_initial : statsConsistent initialAnalyticsData := by
  constructor <;> intro p hp <;> simp [initialAnalyticsData] at hp

theorem calculateRate_denominator_falsy (num den : Option Nat)
    (h : den = none ∨ den = some 0) : calculateRate num den = some 0 := by
  rcases h with h | h <;> subst h <;> rfl

theorem calculateRate_nonneg (num den : Option Nat) (q : ℚ)
    (h : calculateRate num den = some q) : 0 ≤ q := by
  unfold calculateRate at h
  cases den with
  | none =>
    simp only [Option.some.injEq] at h
    subst h
    exact le_refl 0
  | some d =>
    cases d with
    | zero =>
      simp only [Option.some.injEq] at h
      subst h
      exact le_refl 0
    | succ d1 =>
      cases num with
      | none => cases h
      | some n =>
        simp only [Option.some.injEq] at h
        subst h
        positivity

theorem findEntry_incUsed (s : KeyStore) (k : String) :
    findEntry (incUsed s k) k
      = (findEntry s k).map (fun c => { c with used := c.used + 1 }) := by
  induction s with
  | nil => rfl
  | cons hd tl ih =>
    obtain ⟨k0, c0⟩ := hd
    by_cases h : k = k0
    · simp [incUsed, findEntry, h]
    · simp [incUsed, findEntry, h, ih]

theorem findEntry_mem {s : KeyStore} {k : String} {c : Customer}
    (h : findEntry s k = some c) : (k, c) ∈ s := by
  induction s with
  | nil => cases h
  | cons hd tl ih =>
    obtain ⟨k0, c0⟩ := hd
    by_cases hk : k = k0
    · rw [findEntry, if_pos hk] at h
      obtain rfl : c0 = c := Option.some.inj h
      exact hk ▸ List.mem_cons_self _ _
    · rw [findEntry, if_neg hk] at h
      exact List.mem_cons_of_mem _ (ih h)

theorem verify_allow_found {s : KeyStore} {h : Option String} {k : String}
    {c : Customer} (hv : verifyVmizeKey s h = .allow k c) :
    h = some k ∧ findEntry s k = some c ∧ c.used < c.limit := by
  cases h with
  | none => cases hv
  | some key =>
    simp only [verifyVmizeKey] at hv
    cases hfmt : jsStartsWith key "vmize_pk_" with
    | false => rw [hfmt] at hv; cases hv
    | true =>
      rw [hfmt] at hv
      simp only [Bool.not_true, Bool.false_eq_true, if_false] at hv
      cases hfind : findEntry s key with
      | none => rw [hfind] at hv; cases hv
      | some c0 =>
        rw [hfind] at hv
        dsimp only at hv
        by_cases hl : c0.limit ≤ c0.used
        · rw [if_pos hl] at hv; cases hv
        · rw [if_neg hl] at hv
          obtain ⟨rfl, rfl⟩ := Verify.allow.inj hv
          exact ⟨rfl, hfind, by omega⟩

theorem doTryOn_store_cases (cfg urlOk : Bool) (s : KeyStore) (k : String)
    (b : TryOnBody) (up : Upstream) :
    (doTryOn cfg urlOk s k b up).store = s ∨
      (doTryOn cfg urlOk s k b up).store = incUsed s k := by
  unfold doTryOn
  split
  · exact Or.inl rfl
  · split
    · exact Or.inl rfl
    · split
      · exact Or.inl rfl
      · cases up with
        | netFailure => exact Or.inl rfl
        | resp st pid =>
          simp only
          split
          · exact Or.inl rfl
          · exact Or.inr rfl

theorem doTryOn_remaining_reported (cfg urlOk : Bool) (s : KeyStore) (k : String)
    (b : TryOnBody) (up : Upstream) :
    (doTryOn cfg urlOk s k b up).remaining
      = reportRemaining (doTryOn cfg urlOk s k b up).store k := by
  unfold doTryOn
  split
  · rfl
  · split
    · rfl
    · split
      · rfl
      · cases up with
        | netFailure => rfl
        | resp st pid =>
          simp only
          split
          · rfl
          · rfl

theorem usedWithinLimit_incUsed {s : KeyStore} {k : String} {c : Customer}
    (hs : UsedWithinLimit s) (hfind : findEntry s k = some c)
    (hlt : c.used < c.limit) : UsedWithinLimit (incUsed s k) := by
  induction s with
  | nil => intro p hp; cases hp
  | cons hd tl ih =>
    obtain ⟨k0, c0⟩ := hd
    by_cases hk : k = k0
    · rw [findEntry, if_pos hk] at hfind
      obtain rfl : c0 = c := Option.some.inj hfind
      intro p hp
      rw [incUsed, if_pos hk] at hp
      rcases List.mem_cons.mp hp with h1 | h2
      · subst h1
        simpa using hlt
      · exact hs p (List.mem_cons_of_mem _ h2)
    · rw [findEntry, if_neg hk] at hfind
      intro p hp
      rw [incUsed, if_neg hk] at hp
      rcases List.mem_cons.mp hp with h1 | h2
      · subst h1
        exact hs (k0, c0) (List.mem_cons_self _ _)
      · exact ih (fun q hq => hs q (List.mem_cons_of_mem _ hq)) hfind p h2

theorem usedWithinLimit_tryonEndpoint (cfg urlOk : Bool) (s : KeyStore)
    (header : Option String) (b : TryOnBody) (up : Upstream)
    (hs : UsedWithinLimit s) :
    UsedWithinLimit (tryonEndpoint cfg urlOk s header b up).store := by
  unfold tryonEndpoint
  cases hv : verifyVmizeKey s header with
  | reject st => exact hs
  | allow k c =>
    obtain ⟨_, hfind, hlt⟩ := verify_allow_found hv
    rcases doTryOn_store_cases cfg urlOk s k b up with h1 | h1 <;> simp only [h1]
    · exact hs
    · exact usedWithinLimit_incUsed hs hfind hlt

theorem usedWithinLimit_reset (s : KeyStore) :
    UsedWithinLimit (resetEndpoint s) := by
  intro p hp
  simp only [resetEndpoint, List.mem_map] at hp
  obtain ⟨q, _, rfl⟩ := hp
  exact Nat.zero_le _

theorem reachableStore_usedWithinLimit {s : KeyStore} (h : ReachableStore s) :
    UsedWithinLimit s := by
  induction h with
  | refl =>
    intro p hp
    simp only [demoKeysInit, List.mem_singleton] at hp
    subst hp
    simp
  | tail _hab hbc ih =>
    cases hbc with
    | tryon cfg urlOk header body up =>
      exact usedWithinLimit_tryonEndpoint _ _ _ _ _ _ ih
    | generate cfg urlOk header body up =>
      exact usedWithinLimit_tryonEndpoint _ _ _ _ _ _ ih
    | reset => exact usedWithinLimit_reset _

theorem usageEndpoint_ok_floored {s : KeyStore} {header : Option String}
    {plan : String} {l u : Nat} {r : Int}
    (h : usageEndpoint s header = .ok plan l u r) :
    r = max 0 ((l : Int) - (u : Int)) ∧ 0 ≤ r := by
  unfold usageEndpoint at h
  cases hv : verifyVmizeKey s header with
  | reject st => rw [hv] at h; cases h
  | allow k c =>
    rw [hv] at h
    obtain ⟨_, _, hlt⟩ := verify_allow_found hv
    obtain ⟨_, h2, h3, h4⟩ := UsageOut.ok.inj h
    subst h2; subst h3; subst h4
    omega

theorem doTryOn_remaining_floored {cfg urlOk : Bool} {s : KeyStore} {k : String}
    {body : TryOnBody} {up : Upstream} {c : Customer} {r : Int}
    (hfind : findEntry s k = some c) (hlt : c.used < c.limit)
    (h : (doTryOn cfg urlOk s k body up).remaining = some r) :
    0 ≤ r ∧ ∃ c2, findEntry (doTryOn cfg urlOk s k body up).store k = some c2 ∧
      r = max 0 ((c2.limit : Int) - (c2.used : Int)) := by
  rw [doTryOn_remaining_reported] at h
  rcases doTryOn_store_cases cfg urlOk s k body up with hs | hs <;> rw [hs] at h ⊢
  · rw [reportRemaining, hfind] at h
    simp only [Option.map_some'] at h
    have hr := Option.some.inj h
    refine ⟨by omega, c, hfind, by omega⟩
  · have hf2 : findEntry (incUsed s k) k = some { c with used := c.used + 1 } := by
      rw [findEntry_incUsed, hfind]
      simp only [Option.map_some']
    rw [reportRemaining, hf2] at h
    simp only [Option.map_some'] at h
    have hr := Option.some.inj h
    simp only at hr
    refine ⟨by omega, { c with used := c.used + 1 }, hf2, by simp only; omega⟩

theorem tryonEndpoint_remaining_floored {cfg urlOk : Bool} {s : KeyStore}
    {k : String} {body : TryOnBody} {up : Upstream} {r : Int}
    (h : (tryonEndpoint cfg urlOk s (some k) body up).remaining = some r) :
    0 ≤ r ∧ ∃ c2,
      findEntry (tryonEndpoint cfg urlOk s (some k) body up).store k = some c2 ∧
      r = max 0 ((c2.limit : Int) - (c2.used : Int)) := by
  cases hv : verifyVmizeKey s (some k) with
  | reject st =>
    simp only [tryonEndpoint, hv] at h
    cases h
  | allow k0 c =>
    obtain ⟨hk, hfind, hlt⟩ := verify_allow_found hv
    obtain rfl : k = k0 := Option.some.inj hk
    simp only [tryonEndpoint, hv] at h ⊢
    exact doTryOn_remaining_floored hfind hlt h

theorem plainVerify_allow_within {ps : List (String × PlainCustomer)}
    {header : Option String} {c : PlainCustomer}
    (hv : verifyCustomerApiKey ps header = .allow c) :
    c.usageThisMonth < c.planLimit := by
  cases header with
  | none => cases hv
  | some key =>
    simp only [verifyCustomerApiKey] at hv
    by_cases hfmt : (!jsStartsWith key "vmize_pk_live_"
        && !jsStartsWith key "vmize_pk_test_") = true
    · rw [if_pos hfmt] at hv; cases hv
    · rw [if_neg hfmt] at hv
      cases hfind : findEntry ps key with
      | none => rw [hfind] at hv; cases hv
      | some c0 =>
        rw [hfind] at hv
        dsimp only at hv
        by_cases hst : c0.status ≠ "active"
        · rw [if_pos hst] at hv; cases hv
        · rw [if_neg hst] at hv
          by_cases hl : c0.planLimit ≤ c0.usageThisMonth
          · rw [if_pos hl] at hv; cases hv
          · rw [if_neg hl] at hv
            obtain rfl := PlainVerify.allow.inj hv
            omega

theorem plainUsageEndpoint_ok_floored {ps : List (String × PlainCustomer)}
    {header : Option String} {plan : String} {l u : Nat} {r : Int}
    (h : plainUsageEndpoint ps header = .ok plan l u r) :
    r = max 0 ((l : Int) - (u : Int)) ∧ 0 ≤ r := by
  unfold plainUsageEndpoint at h
  cases hv : verifyCustomerApiKey ps header with
  | reject st => rw [hv] at h; cases h
  | allow c =>
    rw [hv] at h
    have hlt := plainVerify_allow_within hv
    obtain ⟨_, h2, h3, h4⟩ := UsageOut.ok.inj h
    subst h2; subst h3; subst h4
    omega

/-! ## Claim theorems -/

/-- Claim C1: a customer with `planLimit = 100` and `currentMonthUsage = 99`
is admitted; after upstream success the stored counter becomes 100 and the
response reports `remaining = 0`; a subsequent submission by the same
customer is rejected 429 by the middleware without running the handler or
consuming a call; and in general, for a well-formed known key, admission
rejects with 429 exactly when `currentMonthUsage + 1 > planLimit`. -/
theorem quota_boundary_scenario (store : KeyStore) (k : String) (c : Customer)
    (hfind : findEntry store k = some c)
    (hfmt : jsStartsWith k "vmize_pk_" = true)
    (hlimit : c.limit = 100) (hused : c.used = 99)
    (body : TryOnBody) (m g pid : String)
    (hm : body.model_image = some m) (hg : body.garment_image = some g) :
    verifyVmizeKey store (some k) = .allow k c ∧
    (doTryOn true true store k body (.resp 200 pid)).status = 200 ∧
    findEntry (doTryOn true true store k body (.resp 200 pid)).store k
      = some { c with used := 100 } ∧
    (doTryOn true true store k body (.resp 200 pid)).remaining = some 0 ∧
    tryonEndpoint true true (doTryOn true true store k body (.resp 200 pid)).store
        (some k) body (.resp 200 pid)
      = { status := 429,
          store := (doTryOn true true store k body (.resp 200 pid)).store,
          processed := false, upstreamCalled := false, remaining := none } ∧
    (∀ (s2 : KeyStore) (k2 : String) (c2 : Customer),
      findEntry s2 k2 = some c2 → jsStartsWith k2 "vmize_pk_" = true →
      (verifyVmizeKey s2 (some k2) = .reject 429 ↔ c2.limit < c2.used + 1)) := by
  have hsucc : doTryOn true true store k body (.resp 200 pid)
      = { status := 200, store := incUsed store k, upstreamCalled := true,
          remaining := reportRemaining (incUsed store k) k } := by
    simp [doTryOn, hm, hg]
  have hfind2 : findEntry (incUsed store k) k = some { c with used := 100 } := by
    rw [findEntry_incUsed, hfind]
    simp only [Option.map_some']
    rw [hused]
  refine ⟨?_, ?_, ?_, ?_, ?_, ?_⟩
  · simp only [verifyVmizeKey, hfmt, Bool.not_true, Bool.false_eq_true, if_false, hfind]
    rw [hlimit, hused]
    norm_num
  · rw [hsucc]
  · rw [hsucc]
    exact hfind2
  · rw [hsucc]
    show reportRemaining (incUsed store k) k = some 0
    rw [reportRemaining, hfind2]
    simp [hlimit]
  · rw [hsucc]
    have hrej : verifyVmizeKey (incUsed store k) (some k) = .reject 429 := by
      simp only [verifyVmizeKey, hfmt, Bool.not_true, Bool.false_eq_true, if_false, hfind2]
      rw [if_pos]
      show ({ c with used := 100 } : Customer).limit ≤ 100
      rw [hlimit]
    simp only [tryonEndpoint, hrej]
  · intro s2 k2 c2 hf2 hb2
    simp only [verifyVmizeKey, hb2, Bool.not_true, Bool.false_eq_true, if_false, hf2]
    by_cases h2 : c2.limit ≤ c2.used
    · rw [if_pos h2]
      constructor
      · intro; omega
      · intro; rfl
    · rw [if_neg h2]
      constructor
      · intro hx; cases hx
      · intro hx; omega

theorem quota_boundary_scenario_witness :
    verifyVmizeKey [("vmize_pk_a",
        { customerId := "cust_a", email := "a@example.com", plan := "starter",
          limit := 100, used := 99 })] (some "vmize_pk_a")
      = .allow "vmize_pk_a"
          { customerId := "cust_a", email := "a@example.com", plan := "starter",
            limit := 100, used := 99 } :=
  (quota_boundary_scenario _ "vmize_pk_a" _ (by decide) (by decide) rfl rfl
    { model_image := some "m", garment_image := some "g" } "m" "g" "p1" rfl rfl).1

/-- Claim C3: for an admitted try-on whose upstream request fails (network
failure/timeout or a `status >= 400` provider response), the caller gets a
500 and the stored usage counter is unchanged; the counter is incremented by
one exactly on upstream success. -/
theorem upstream_failure_no_usage_change (store : KeyStore) (k : String)
    (c : Customer) (hfind : findEntry store k = some c) (body : TryOnBody)
    (m g : String) (hm : body.model_image = some m)
    (hg : body.garment_image = some g) :
    ((doTryOn true true store k body .netFailure).status = 500 ∧
     (doTryOn true true store k body .netFailure).store = store ∧
     findEntry (doTryOn true true store k body .netFailure).store k = some c) ∧
    (∀ st pid, 400 ≤ st →
      (doTryOn true true store k body (.resp st pid)).status = 500 ∧
      (doTryOn true true store k body (.resp st pid)).store = store ∧
      findEntry (doTryOn true true store k body (.resp st pid)).store k = some c) ∧
    (∀ st pid, st < 400 →
      (doTryOn true true store k body (.resp st pid)).status = 200 ∧
      findEntry (doTryOn true true store k body (.resp st pid)).store k
        = some { c with used := c.used + 1 }) := by
  refine ⟨?_, ?_, ?_⟩
  · constructor
    · simp [doTryOn, hm, hg]
    constructor
    · simp [doTryOn, hm, hg]
    · simp [doTryOn, hm, hg, hfind]
  · intro st pid hst
    refine ⟨?_, ?_, ?_⟩
    · simp [doTryOn, hm, hg, hst]
    · simp [doTryOn, hm, hg, hst]
    · simp [doTryOn, hm, hg, hst, hfind]
  · intro st pid hst
    have hnot : ¬ 400 ≤ st := by omega
    refine ⟨?_, ?_⟩
    · simp [doTryOn, hm, hg, hnot]
    · simp [doTryOn, hm, hg, hnot, findEntry_incUsed, hfind]

theorem upstream_failure_no_usage_change_witness :
    (doTryOn true true demoKeysInit demoApiKey
        { model_image := some "m", garment_image := some "g" } .netFailure).status = 500 :=
  (upstream_failure_no_usage_change demoKeysInit demoApiKey
    { customerId := "demo_customer", email := "demo@example.com",
      plan := "professional", limit := 500, used := 0 } (by decide)
    { model_image := some "m", garment_image := some "g" } "m" "g" rfl rfl).1.1

/-- Claim C4 counterexample: on the analytics server, a try-on submission
missing `model_image` is answered HTTP 500 (the missing-image throw lands in
the generic catch block), not the claimed 400 — though indeed before any
upstream call. -/
theorem missing_image_answered_500_not_400 :
    (doTryOn true true demoKeysInit demoApiKey
        { model_image := none, garment_image := some "g" } .netFailure).status = 500 ∧
    ¬ (doTryOn true true demoKeysInit demoApiKey
        { model_image := none, garment_image := some "g" } .netFailure).status = 400 ∧
    (doTryOn true true demoKeysInit demoApiKey
        { model_image := none, garment_image := some "g" } .netFailure).upstreamCalled
      = false := by
  refine ⟨by simp [doTryOn], by simp [doTryOn], by simp [doTryOn]⟩

/-- Claim C4 (amended): a try-on submission missing either mandatory image
reference fails before any upstream call on both servers — with
400 BadRequest on the plain proxy server, but with HTTP 500 on the
analytics server (whose handler throws into the generic catch block); in
neither server is the key store touched. -/
theorem missing_image_rejected_before_upstream (body : TryOnBody)
    (h : body.model_image = none ∨ body.garment_image = none) :
    (∀ up, (plainTryOn body up).status = 400 ∧
      (plainTryOn body up).upstreamCalled = false) ∧
    (∀ (cfg urlOk : Bool) (store : KeyStore) (k : String) (up : Upstream),
      (doTryOn cfg urlOk store k body up).status = 500 ∧
      (doTryOn cfg urlOk store k body up).upstreamCalled = false ∧
      (doTryOn cfg urlOk store k body up).store = store) := by
  have hb : (body.model_image.isNone || body.garment_image.isNone) = true := by
    rcases h with h | h <;> simp [h]
  refine ⟨?_, ?_⟩
  · intro up
    exact ⟨by simp [plainTryOn, hb], by simp [plainTryOn, hb]⟩
  · intro cfg urlOk store k up
    cases cfg with
    | false => exact ⟨by simp [doTryOn], by simp [doTryOn], by simp [doTryOn]⟩
    | true => exact ⟨by simp [doTryOn, hb], by simp [doTryOn, hb], by simp [doTryOn, hb]⟩

theorem missing_image_rejected_before_upstream_witness :
    (plainTryOn { model_image := none, garment_image := some "g" } .netFailure).status
      = 400 :=
  ((missing_image_rejected_before_upstream
    { model_image := none, garment_image := some "g" } (Or.inl rfl)).1 .netFailure).1

/-- Claim C5 counterexample: a request to `POST /api/tryon/generate` with the
`X-Vmize-API-Key` header missing is not answered 401 — the demo key is
injected, verification passes and the handler runs (HTTP 200 on upstream
success). -/
theorem generate_endpoint_processes_missing_header :
    (generateEndpoint true true demoKeysInit none
        { model_image := some "m", garment_image := some "g" }
        (.resp 200 "p1")).status = 200 ∧
    (generateEndpoint true true demoKeysInit none
        { model_image := some "m", garment_image := some "g" }
        (.resp 200 "p1")).processed = true ∧
    ¬ (generateEndpoint true true demoKeysInit none
        { model_image := some "m", garment_image := some "g" }
        (.resp 200 "p1")).status = 401 := by
  refine ⟨by decide, by decide, by decide⟩

/-- Claim C5 (amended): on the `verifyVmizeKey`-guarded endpoints
(`/api/tryon`, `/api/usage`) a missing or malformed API key is answered 401
and the handler never runs; the demo-friendly endpoints
(`/api/tryon/generate`, `/api/tryon/:id`) first replace a missing header
with the demo key, so there only a present malformed key is answered 401. -/
theorem unauthenticated_key_rejected (store : KeyStore) (header : Option String)
    (hbad : header = none ∨
      ∃ k, header = some k ∧ jsStartsWith k "vmize_pk_" = false) :
    (∀ (cfg urlOk : Bool) (body : TryOnBody) (up : Upstream),
      tryonEndpoint cfg urlOk store header body up
        = { status := 401, store := store, processed := false,
            upstreamCalled := false, remaining := none }) ∧
    usageEndpoint store header = .err 401 ∧
    (∀ (cfg urlOk : Bool) (body : TryOnBody) (up : Upstream) (k : String),
      jsStartsWith k "vmize_pk_" = false →
      generateEndpoint cfg urlOk store (some k) body up
        = { status := 401, store := store, processed := false,
            upstreamCalled := false, remaining := none }) ∧
    (∀ (cfg urlOk : Bool) (body : TryOnBody) (up : Upstream) (h2 : Option String),
      generateEndpoint cfg urlOk store h2 body up
        = tryonEndpoint cfg urlOk store (some (h2.getD demoApiKey)) body up) := by
  have hrej : verifyVmizeKey store header = .reject 401 := by
    rcases hbad with h | ⟨k, rfl, hk⟩
    · rw [h]; rfl
    · simp [verifyVmizeKey, hk]
  refine ⟨?_, ?_, ?_, ?_⟩
  · intro cfg urlOk body up
    simp only [tryonEndpoint, hrej]
  · simp only [usageEndpoint, hrej]
  · intro cfg urlOk body up k hk
    simp only [generateEndpoint, tryonEndpoint, Option.getD_some]
    simp [verifyVmizeKey, hk]
  · intro cfg urlOk body up h2
    rfl

theorem unauthenticated_key_rejected_witness :
    usageEndpoint demoKeysInit (some "bad_format_key") = .err 401 :=
  (unauthenticated_key_rejected demoKeysInit (some "bad_format_key")
    (Or.inr ⟨"bad_format_key", rfl, by decide⟩)).2.1

/-- Claim C6 counterexample: two overlapping try-on calls from a customer at
`used = 99`, `limit = 100`.  Both are admitted by `verifyVmizeKey` against
the same store snapshot (the second verifies while the first is suspended at
its awaits before `used++`); after both increments the stored usage is 101,
over the limit, and the second call's 200 response reports
`remaining = 100 - 101 = -1` — a negative value in an externally observed
response, refuting the claim. -/
theorem concurrent_calls_report_negative_remaining :
    overlappedTryOnPair
        [("vmize_pk_a",
          { customerId := "cust_a", email := "a@example.com", plan := "starter",
            limit := 100, used := 99 })] "vmize_pk_a"
      = (.allow "vmize_pk_a"
          { customerId := "cust_a", email := "a@example.com", plan := "starter",
            limit := 100, used := 99 },
         .allow "vmize_pk_a"
          { customerId := "cust_a", email := "a@example.com", plan := "starter",
            limit := 100, used := 99 },
         [("vmize_pk_a",
          { customerId := "cust_a", email := "a@example.com", plan := "starter",
            limit := 100, used := 101 })],
         some (-1)) ∧
    ¬ (0 : Int) ≤ -1 := by
  exact ⟨by decide, by decide⟩

/-- Claim C6 (amended): every usage-query response, on either server, reports
`remaining = planLimit - currentMonthUsage` floored at 0 and never negative —
for every store state, even one over the limit, because the synchronous
re-verification gates the response; a try-on response likewise reports the
nonnegative floored difference of the resulting store whenever the request
runs without interleaved increments from concurrent requests (atomic request
execution, as in `tryonEndpoint`); and under non-overlapping request
execution every reachable store keeps each customer within its plan limit.
With overlapping requests these last two parts fail: usage can reach
`limit + 1` and a try-on 200 body can report `remaining = -1` (see the
counterexample). -/
theorem reported_remaining_floored_nonneg :
    (∀ (s : KeyStore) (header : Option String) (plan : String) (l u : Nat)
        (r : Int),
      usageEndpoint s header = .ok plan l u r →
      r = max 0 ((l : Int) - (u : Int)) ∧ 0 ≤ r) ∧
    (∀ (ps : List (String × PlainCustomer)) (header : Option String)
        (plan : String) (l u : Nat) (r : Int),
      plainUsageEndpoint ps header = .ok plan l u r →
      r = max 0 ((l : Int) - (u : Int)) ∧ 0 ≤ r) ∧
    (∀ (s : KeyStore) (cfg urlOk : Bool) (k : String) (body : TryOnBody)
        (up : Upstream) (r : Int),
      (tryonEndpoint cfg urlOk s (some k) body up).remaining = some r →
      0 ≤ r ∧ ∃ c2,
        findEntry (tryonEndpoint cfg urlOk s (some k) body up).store k = some c2 ∧
        r = max 0 ((c2.limit : Int) - (c2.used : Int))) ∧
    (∀ s : KeyStore, ReachableStore s → UsedWithinLimit s) := by
  refine ⟨?_, ?_, ?_, ?_⟩
  · intro s header plan l u r h
    exact usageEndpoint_ok_floored h
  · intro ps header plan l u r h
    exact plainUsageEndpoint_ok_floored h
  · intro s cfg urlOk k body up r h
    exact tryonEndpoint_remaining_floored h
  · intro s hreach
    exact reachableStore_usedWithinLimit hreach

theorem reported_remaining_floored_nonneg_witness :
    ((500 : Int) = max 0 ((500 : Int) - (0 : Int)) ∧ (0 : Int) ≤ 500) ∧
    UsedWithinLimit demoKeysInit :=
  ⟨reported_remaining_floored_nonneg.1 demoKeysInit (some demoApiKey)
      "professional" 500 0 500 (by decide),
   reported_remaining_floored_nonneg.2.2.2 demoKeysInit
      Relation.ReflTransGen.refl⟩

/-- Claim C2 counterexample: a billing run over two active customers, both at
usage 120 with limit 100 (overage cost $10 at a $0.50 rate), where the
billing collaborator fails on the first charge: the run aborts inside its
single try/catch, so neither customer is reset (both keep usage 120, neither
is archived) and the second customer is never charged — contradicting both
the per-customer reset-regardless-of-outcome and the continue-on-failure
parts of the claim. -/
theorem billing_run_aborts_on_charge_failure :
    runMonthlyBilling (fun _ => false)
        [{ email := "a@x.com", stripeCustomerId := "cus_a", currentMonthUsage := 120,
           planLimit := 100, overageRate := 1/2, periodKey := "2025-05",
           usageHistory := [] },
         { email := "b@x.com", stripeCustomerId := "cus_b", currentMonthUsage := 120,
           planLimit := 100, overageRate := 1/2, periodKey := "2025-05",
           usageHistory := [] }]
      = ([{ email := "a@x.com", stripeCustomerId := "cus_a", currentMonthUsage := 120,
            planLimit := 100, overageRate := 1/2, periodKey := "2025-05",
            usageHistory := [] },
          { email := "b@x.com", stripeCustomerId := "cus_b", currentMonthUsage := 120,
            planLimit := 100, overageRate := 1/2, periodKey := "2025-05",
            usageHistory := [] }], []) ∧
    ({ email := "b@x.com", stripeCustomerId := "cus_b", currentMonthUsage := 120,
       planLimit := 100, overageRate := 1/2, periodKey := "2025-05",
       usageHistory := [] } : BillingCustomer).currentMonthUsage ≠ 0 := by
  constructor
  · norm_num [runMonthlyBilling, calculateOverage]
  · norm_num

/-- Claim C2 (amended): when every charge attempt succeeds (or is skipped for
zero cost), every customer of the run is reset — usage zeroed with the prior
value archived into the usage history; but the first failing charge aborts
the run: customers before it are charged and reset, while the failing
customer and every later customer keep their usage, are not archived, and
are not charged. -/
theorem monthly_billing_reset_behavior :
    (∀ (chargeOk : BillingCustomer → Bool) (cs : List BillingCustomer),
      (∀ c ∈ cs, 0 < (calculateOverage c).2 → chargeOk c = true) →
      (runMonthlyBilling chargeOk cs).1 = cs.map resetMonthlyUsage) ∧
    (∀ c : BillingCustomer,
      (resetMonthlyUsage c).currentMonthUsage = 0 ∧
      (resetMonthlyUsage c).usageHistory
        = c.usageHistory ++ [(c.periodKey, c.currentMonthUsage)]) ∧
    (∀ (chargeOk : BillingCustomer → Bool) (pre : List BillingCustomer)
        (f : BillingCustomer) (post : List BillingCustomer),
      (∀ c ∈ pre, 0 < (calculateOverage c).2 → chargeOk c = true) →
      0 < (calculateOverage f).2 → chargeOk f = false →
      runMonthlyBilling chargeOk (pre ++ f :: post)
        = (pre.map resetMonthlyUsage ++ f :: post,
           (runMonthlyBilling chargeOk pre).2)) := by
  refine ⟨?_, ?_, ?_⟩
  · intro chargeOk cs h
    induction cs with
    | nil => rfl
    | cons c rest ih =>
      have hrest := ih fun q hq => h q (List.mem_cons_of_mem _ hq)
      by_cases hc : 0 < (calculateOverage c).2
      · have hok := h c (List.mem_cons_self _ _) hc
        simp only [runMonthlyBilling, if_pos hc, hok, if_true, List.map_cons]
        rw [hrest]
      · simp only [runMonthlyBilling, if_neg hc, List.map_cons]
        rw [hrest]
  · intro c
    exact ⟨rfl, rfl⟩
  · intro chargeOk pre f post hpre hf hfail
    induction pre with
    | nil =>
      simp only [List.nil_append, List.map_nil, runMonthlyBilling, if_pos hf, hfail,
        Bool.false_eq_true, if_false]
    | cons c rest ih =>
      have hrest := ih fun q hq => hpre q (List.mem_cons_of_mem _ hq)
      by_cases hc : 0 < (calculateOverage c).2
      · have hok := hpre c (List.mem_cons_self _ _) hc
        simp only [List.cons_append, runMonthlyBilling, if_pos hc, hok, if_true,
          List.map_cons, List.append_eq, hrest]
      · simp only [List.cons_append, runMonthlyBilling, if_neg hc, List.map_cons,
          List.append_eq, hrest]

theorem monthly_billing_reset_behavior_witness :
    (runMonthlyBilling (fun _ => true)
        [{ email := "d@x.com", stripeCustomerId := "cus_d", currentMonthUsage := 120,
           planLimit := 100, overageRate := 1/2, periodKey := "2025-05",
           usageHistory := [] }]).1
      = [{ email := "d@x.com", stripeCustomerId := "cus_d", currentMonthUsage := 120,
           planLimit := 100, overageRate := 1/2, periodKey := "2025-05",
           usageHistory := [] }].map resetMonthlyUsage :=
  monthly_billing_reset_behavior.1 (fun _ => true) _ (fun _ _ _ => rfl)

/-- Claim C10: starting from the initial (or freshly reset) analytics state,
after any sequence of `trackApiCall` and `trackEvent` operations, every
per-customer rollup and every daily aggregate satisfies
`totalCalls = successfulCalls + failedCalls`. -/
theorem rollups_split_into_success_and_failure :
    (∀ ops : List TrackOp, statsConsistent (runOps initialAnalyticsData ops)) ∧
    (∀ (d : AnalyticsData) (ops : List TrackOp),
      statsConsistent (runOps (resetAnalytics d) ops)) :=
  ⟨fun ops => statsConsistent_runOps _ ops statsConsistent_initial,
   fun _d ops => statsConsistent_runOps _ ops statsConsistent_initial⟩

theorem trackEventCount_comm (c : String → Option Nat) (e1 e2 : String)
    (h : e1 ≠ e2) :
    trackEventCount (trackEventCount c e1) e2
      = trackEventCount (trackEventCount c e2) e1 := by
  funext k
  simp only [trackEventCount]
  by_cases h2 : k = e2 <;> by_cases h1 : k = e1
  · exact absurd (h1 ▸ h2) h
  · simp [h1, h2, Ne.symm h, h]
  · simp [h1, h2, Ne.symm h, h]
  · simp [h1, h2]

/-- Claim C9: recording `photo_uploaded` and `tryon_initiated` in either
order yields the same final event counters (recording on distinct counters
commutes), and the funnel's `uploadRate` computed afterwards is
`calculateRate` of the final `photo_uploaded` and `tryon_initiated` counts. -/
theorem recordEvent_order_irrelevant (d : AnalyticsData) (dk : String)
    (cid : Option String) (e1 e2 : String) (h : e1 ≠ e2) :
    trackEvent (trackEvent d dk e1 cid none) dk e2 cid none
      = trackEvent (trackEvent d dk e2 cid none) dk e1 cid none ∧
    (getConversionFunnel
        (trackEvent (trackEvent d dk "photo_uploaded" cid none) dk
          "tryon_initiated" cid none).eventCounts).uploadRate
      = calculateRate
          ((trackEvent (trackEvent d dk "photo_uploaded" cid none) dk
            "tryon_initiated" cid none).eventCounts "photo_uploaded")
          ((trackEvent (trackEvent d dk "photo_uploaded" cid none) dk
            "tryon_initiated" cid none).eventCounts "tryon_initiated") := by
  constructor
  · have hcomm := trackEventCount_comm d.eventCounts e1 e2 h
    simp only [trackEvent, hcomm]
  · rfl

/-- Claim C8 (amended): every stage-to-stage conversion ratio returned by the
funnel computation equals 0 — not NaN and not an error — whenever the
denominator stage count is 0 (or absent), and every returned ratio is
nonnegative; the claimed upper bound of 1 (100%) does not hold in general. -/
theorem funnel_rates_zero_denominator_safe (events : String → Option Nat) :
    ((events "tryon_initiated" = none ∨ events "tryon_initiated" = some 0) →
      (getConversionFunnel events).uploadRate = some 0) ∧
    (∀ q, (getConversionFunnel events).uploadRate = some q → 0 ≤ q) ∧
    ((events "photo_uploaded" = none ∨ events "photo_uploaded" = some 0) →
      (getConversionFunnel events).viewRate = some 0) ∧
    (∀ q, (getConversionFunnel events).viewRate = some q → 0 ≤ q) ∧
    ((events "result_viewed" = none ∨ events "result_viewed" = some 0) →
      (getConversionFunnel events).cartRate = some 0) ∧
    (∀ q, (getConversionFunnel events).cartRate = some q → 0 ≤ q) ∧
    ((events "add_to_cart" = none ∨ events "add_to_cart" = some 0) →
      (getConversionFunnel events).purchaseRate = some 0) ∧
    (∀ q, (getConversionFunnel events).purchaseRate = some q → 0 ≤ q) := by
  refine ⟨?_, ?_, ?_, ?_, ?_, ?_, ?_, ?_⟩
  · exact fun h => calculateRate_denominator_falsy _ _ h
  · exact fun q h => calculateRate_nonneg _ _ q h
  · exact fun h => calculateRate_denominator_falsy _ _ h
  · exact fun q h => calculateRate_nonneg _ _ q h
  · exact fun h => calculateRate_denominator_falsy _ _ h
  · exact fun q h => calculateRate_nonneg _ _ q h
  · exact fun h => calculateRate_denominator_falsy _ _ h
  · exact fun q h => calculateRate_nonneg _ _ q h

theorem funnel_rates_zero_denominator_safe_witness :
    (getConversionFunnel initialEventCounts).uploadRate = some 0 :=
  (funnel_rates_zero_denominator_safe initialEventCounts).1 (Or.inr rfl)

/-- Claim C8 counterexample: after recording `tryon_initiated` once and
`photo_uploaded` twice (a state reachable through the public
`POST /api/track` endpoint), the funnel's `uploadRate` is 200%, outside the
claimed range [0,1] (0%–100%). -/
theorem funnel_rate_can_exceed_one :
    (getConversionFunnel
      (trackEvent (trackEvent (trackEvent initialAnalyticsData "2025-06-01"
          "tryon_initiated" none none) "2025-06-01" "photo_uploaded" none none)
        "2025-06-01" "photo_uploaded" none none).eventCounts).uploadRate
      = some 200 ∧ ¬ ((200 : ℚ) / 100 ≤ 1) := by
  constructor
  · have h1 : ("tryon_initiated" : String) = "photo_uploaded" ↔ False := by
      simp only [iff_false]; decide
    have h2 : ("photo_uploaded" : String) = "tryon_initiated" ↔ False := by
      simp only [iff_false]; decide
    norm_num [getConversionFunnel, trackEvent, trackEventCount, initialEventCounts,
      initialAnalyticsData, calculateRate, h1, h2]
  · norm_num

/-- Claim C7: saving the analytics data and loading it back must preserve each
day's distinct-customer set.  The code fails: `JSON.stringify` serializes the
`uniqueCustomers` `Set` of a daily aggregate (here the one produced by a
single tracked call of customer `demo_customer` on 2025-06-01) as the empty
JSON object, losing the customer ids, and `loadData`'s rehydration
(`new Set` on that parsed empty object) throws instead of restoring set
semantics. -/
theorem daily_customer_set_lost_on_roundtrip :
    (trackApiCall initialAnalyticsData "2025-06-01"
        { customerId := "demo_customer", endpoint := "/api/tryon", method := "POST",
          status := .str "success", duration := 120 }).dailyStats
      = [("2025-06-01",
          { totalCalls := 1, successfulCalls := 1, failedCalls := 0,
            uniqueCustomers := ["demo_customer"], revenue := 0 })] ∧
    (serializeDayStats
        { totalCalls := 1, successfulCalls := 1, failedCalls := 0,
          uniqueCustomers := ["demo_customer"], revenue := 0 }).uniqueCustomers
      = SerializedSet.emptyObject ∧
    loadDailyStats (saveDailyStats
        [("2025-06-01",
          { totalCalls := 1, successfulCalls := 1, failedCalls := 0,
            uniqueCustomers := ["demo_customer"], revenue := 0 })])
      = none := by
  refine ⟨?_, rfl, rfl⟩
  simp [trackApiCall, upsertEntry, applyCallToDayStats, freshDayStats, setAdd,
    isSuccessStatus, initialAnalyticsData]

theorem recordEvent_order_irrelevant_witness :
    trackEvent (trackEvent initialAnalyticsData "2025-06-01" "photo_uploaded" none none)
        "2025-06-01" "tryon_initiated" none none
      = trackEvent (trackEvent initialAnalyticsData "2025-06-01" "tryon_initiated" none none)
          "2025-06-01" "photo_uploaded" none none :=
  (recordEvent_order_irrelevant initialAnalyticsData "2025-06-01" none
    "photo_uploaded" "tryon_initiated" (by decide)).1

end Vmize
